import Mathlib

/-!
Shallow embedding of `src/fs.rs` (miniquad file-access layer): the public
facade `load_file` / `read_file` / `save_file`, the synchronous backend
adapters (desktop, Android), and the deferred WASM bridge with its
pending-request table `FILES` and notification entry point `file_loaded`.

Modelling conventions:
* Byte strings (`&str` paths, `Vec<u8>` buffers) are `List Nat`.
* `Result<Vec<u8>, Error>` (the source's `Response`) is the inductive
  `Response` below.
* A Rust panic (`unwrap` on `CString::new`, `unimplemented!`,
  `panic!("Unknown file loaded!")`, `RefCell` double borrow) is an
  `Except.error` carrying a `Panic` reason.
* Observable actions (callback invocations, FFI-primitive calls) are
  recorded in an event trace, so "invoked exactly once" and
  "primitive not called" are statable; a computation returns a `Res`:
  its outcome together with the trace of events that happened before it
  returned or panicked.
* The external collaborators (host-runtime fetch surface, Android native
  primitives, the desktop filesystem) are an explicit environment `Env`
  of pure oracles, as the spec treats them as given primitives.
* The thread-local `FILES: RefCell<HashMap<u32, Box<dyn Fn(Response)>>>`
  is a `WasmState`: an association list with `HashMap` semantics plus a
  `borrowed` flag modelling the live `RefMut` guard; `borrow_mut` while
  `borrowed` is the `BorrowMutError` panic.
* A stored callback `Box<dyn Fn(Response)>` is a pair of an observable
  identity (`Nat`, used in `invoked` events) and a `CbAct` describing
  what the callback itself does to the bridge when invoked: either
  nothing, or one reentrant call to `wasm::load_file` (the behaviour the
  spec's reentrancy requirement quantifies over).
-/

/-- Rust `enum Error` from `src/fs.rs`. `std::io::Error` payloads are opaque
diagnostic values, modelled as `Nat`. -/
inductive Error where
  | IOError (cause : Nat)
  | DownloadFailed
  | AndroidAssetLoadingError
  | AndroidInternalStorageError
  | IOSAssetNoSuchFile
  | IOSAssetNoData
deriving DecidableEq, Repr

/-- Rust `pub type Response = Result<Vec<u8>, Error>` from `src/fs.rs`. -/
inductive Response where
  | ok (bytes : List Nat)
  | err (e : Error)
deriving DecidableEq, Repr

/-- Reasons the embedded code can panic (abort without returning). -/
inductive Panic where
  /-- Rust `panic!("Unknown file loaded!")` in `wasm::file_loaded`. -/
  | unknownFile
  /-- Rust `RefCell::borrow_mut` on the already mutably borrowed `FILES`. -/
  | borrowError
  /-- Rust `CString::new(path).unwrap()` on a path containing a NUL byte. -/
  | nulError
  /-- Rust `unimplemented!(...)` in `save_file` / `read_file`. -/
  | unimplemented
deriving DecidableEq, Repr

/-- Observable events: callback invocations and calls to the external
primitives, in program order. -/
inductive Event where
  /-- A stored/supplied `Response` callback was invoked with `r`. -/
  | invoked (cb : Nat) (r : Response)
  /-- A `save_file` bool callback was invoked with `ok`. -/
  | savedCb (cb : Nat) (ok : Bool)
  /-- Rust `fs_load_file(url, len)` (WASM issuance primitive). -/
  | fsLoadFile (url : List Nat) (len : Nat)
  /-- Rust `fs_get_buffer_size(file_id)` (WASM size query). -/
  | fsGetBufferSize (id : Nat)
  /-- Rust `fs_take_buffer(file_id, ptr, len)` (WASM buffer copy). -/
  | fsTakeBuffer (id : Nat) (len : Nat)
  /-- Rust `android::load_asset(filename, &mut data)`. -/
  | nativeLoadAsset (path : List Nat)
  /-- Rust `android::read_internal_storage(filename, &mut data)`. -/
  | nativeReadStorage (path : List Nat)
  /-- Rust `android::write_internal_storage(filename, ptr, len)`. -/
  | nativeWriteStorage (path : List Nat) (data : List Nat)
  /-- Desktop `File::open` + `read_to_end`. -/
  | desktopOpenRead (path : List Nat)
  /-- iOS `ios::load_file` native access. -/
  | iosLoad (path : List Nat)
deriving DecidableEq, Repr

/-- Outcome of running a piece of the embedded code: the returned value
(or the panic that aborted it) together with the trace of events that
occurred before it finished. -/
structure Res (α : Type) where
  out : Except Panic α
  trace : List Event
deriving Repr

/-- What a stored callback does to the WASM bridge when invoked: nothing
beyond returning, or one reentrant `wasm::load_file(path, k)` call whose
own callback has identity `cbId` and behaviour `act`. -/
inductive CbAct where
  | ret
  | issueLoad (path : List Nat) (cbId : Nat) (act : CbAct)
deriving DecidableEq, Repr

/-- A `Box<dyn Fn(Response)>` stored in `FILES`: observable identity and
bridge-visible behaviour. -/
abbrev Cb := Nat × CbAct

/-- The thread-local `FILES` cell: the pending-request table plus whether
its `RefCell` is currently mutably borrowed. -/
structure WasmState where
  files : List (Nat × Cb)
  borrowed : Bool
deriving Repr

/-- The external collaborators, as pure oracles (the spec treats them as
given primitives; the code never inspects them beyond their results). -/
structure Env where
  /-- Rust `fs_load_file(url_ptr, url_len) -> u32` request identifier. -/
  fs_load_file : List Nat → Nat → Nat
  /-- Rust `fs_get_buffer_size(file_id)`: non-negative size or `-1` sentinel. -/
  fs_get_buffer_size : Nat → Int
  /-- Rust `fs_take_buffer(file_id, ptr, len)`: the bytes the runtime copies
  into the destination buffer (truncated/ignored past `len` by the
  fixed-length in-place write, see `fillBuf`). -/
  fs_take_buffer : Nat → Nat → List Nat
  /-- Rust `android::load_asset`: `none` models a null `content` pointer. -/
  load_asset : List Nat → Option (List Nat)
  /-- Rust `android::read_internal_storage`: `none` models a null pointer. -/
  read_internal_storage : List Nat → Option (List Nat)
  /-- Rust `android::write_internal_storage`: the returned success flag. -/
  write_internal_storage : List Nat → List Nat → Bool
  /-- Desktop `File::open(path)` + `read_to_end`: contents, or the
  `std::io::Error` cause (any failure of open or read). -/
  desktop_read : List Nat → Except Nat (List Nat)
  /-- iOS `pathForResource` (spec-modelled collaborator). -/
  ios_path_for_resource : List Nat → Option (List Nat)
  /-- iOS `dataWithContentsOfFile` (spec-modelled collaborator). -/
  ios_data_with_contents : List Nat → Option (List Nat)

/-- The build-time platform selection (`#[cfg(...)]` in `src/fs.rs`). -/
inductive Platform where
  | wasm32
  | android
  | ios
  | desktop
deriving DecidableEq, Repr

/-- Rust `CString::new(bytes)` fails iff the bytes contain a NUL byte. -/
def containsNul (path : List Nat) : Bool :=
  path.any (· == 0)

/-- Rust `let mut buffer = vec![0; n]; fs_take_buffer(id, ptr, n)`: an
in-place write into a fixed length-`n` zeroed vector — the first `n`
bytes the runtime provides, zero-padded; the vector's length cannot
change. -/
def fillBuf (n : Nat) (src : List Nat) : List Nat :=
  src.take n ++ List.replicate (n - (src.take n).length) 0

/-- Rust `file_len as usize` on wasm32 (32-bit `usize`, bit-pattern cast). -/
def usizeOfI32 (x : Int) : Nat :=
  (x % (2 ^ 32 : Int)).toNat

/-- Rust `HashMap::get`-style lookup on the association-list model. -/
def hmLookup {α : Type} (m : List (Nat × α)) (k : Nat) : Option α :=
  match m with
  | [] => none
  | (k', v) :: t => if k' == k then some v else hmLookup t k

/-- Rust `HashMap::insert`: replaces the entry for `k` if present, otherwise
appends a new one. -/
def hmInsert {α : Type} (m : List (Nat × α)) (k : Nat) (v : α) : List (Nat × α) :=
  match m with
  | [] => [(k, v)]
  | (k', v') :: t => if k' == k then (k, v) :: t else (k', v') :: hmInsert t k v

/-- Rust `HashMap::remove`: the removed value and the remaining table, or
`none` if the key is absent. -/
def hmRemove {α : Type} (m : List (Nat × α)) (k : Nat) : Option (α × List (Nat × α)) :=
  match m with
  | [] => none
  | (k', v) :: t =>
    if k' == k then some (v, t)
    else (hmRemove t k).map fun p => (p.1, (k', v) :: p.2)

/-- Keys of the table are pairwise distinct (the `HashMap` invariant). -/
def keysUnique {α : Type} : List (Nat × α) → Bool
  | [] => true
  | (k, _) :: t => !(t.any (·.1 == k)) && keysUnique t

/-- Number of `invoked` events for callback identity `c` in a trace. -/
def invokedCount (t : List Event) (c : Nat) : Nat :=
  match t with
  | [] => 0
  | .invoked c' _ :: rest => (if c' == c then 1 else 0) + invokedCount rest c
  | _ :: rest => invokedCount rest c

/-- Number of `savedCb` events for callback identity `c` in a trace. -/
def savedCount (t : List Event) (c : Nat) : Nat :=
  match t with
  | [] => 0
  | .savedCb c' _ :: rest => (if c' == c then 1 else 0) + savedCount rest c
  | _ :: rest => savedCount rest c

/-- Is this event a call to the buffer-copy primitive `fs_take_buffer`? -/
def isTakeBuffer : Event → Bool
  | .fsTakeBuffer _ _ => true
  | _ => false

namespace wasm

/-- Rust `wasm::load_file` from `src/fs.rs`:
`CString::new(path).unwrap()`, then `fs_load_file(ptr, len)`, then
`FILES.with(|files| files.borrow_mut().insert(file_id, callback))`. -/
def load_file (env : Env) (st : WasmState) (path : List Nat) (cb : Cb) :
    Res WasmState :=
  if containsNul path then ⟨.error .nulError, []⟩
  else
    let file_id := env.fs_load_file path path.length
    if st.borrowed then ⟨.error .borrowError, [.fsLoadFile path path.length]⟩
    else
      ⟨.ok { st with files := hmInsert st.files file_id cb },
       [.fsLoadFile path path.length]⟩

/-- Invoking a stored callback with response `r` while the bridge is in
state `st`: the invocation is observed, then the callback's own bridge
action runs (a reentrant `wasm::load_file` call for `issueLoad`). -/
def invokeCb (env : Env) (st : WasmState) (cbId : Nat) (act : CbAct)
    (r : Response) : Res WasmState :=
  match act with
  | .ret => ⟨.ok st, [.invoked cbId r]⟩
  | .issueLoad path cbId2 act2 =>
    let inner := load_file env st path (cbId2, act2)
    ⟨inner.out, .invoked cbId r :: inner.trace⟩

/-- Rust `wasm::file_loaded` from `src/fs.rs`. Note the source holds the
`RefMut` from `files.borrow_mut()` for the whole `FILES.with` closure,
including across the callback invocation, so the state is `borrowed`
while the callback runs and is released only afterwards. -/
def file_loaded (env : Env) (st : WasmState) (file_id : Nat) :
    Res WasmState :=
  if st.borrowed then ⟨.error .borrowError, []⟩
  else
    match hmRemove st.files file_id with
    | none => ⟨.error .unknownFile, []⟩
    | some (cb, files') =>
      let held : WasmState := { files := files', borrowed := true }
      let file_len := env.fs_get_buffer_size file_id
      if file_len == -1 then
        let r := invokeCb env held cb.1 cb.2 (.err .DownloadFailed)
        ⟨r.out.map fun s => { s with borrowed := false },
         .fsGetBufferSize file_id :: r.trace⟩
      else
        let len := usizeOfI32 file_len
        let buffer := fillBuf len (env.fs_take_buffer file_id len)
        let r := invokeCb env held cb.1 cb.2 (.ok buffer)
        ⟨r.out.map fun s => { s with borrowed := false },
         .fsGetBufferSize file_id :: .fsTakeBuffer file_id len :: r.trace⟩

end wasm

/-- Rust `load_asset_android` from `src/fs.rs`: `CString::new(path).unwrap()`,
`android::load_asset`, null pointer check, copy-out, then `on_loaded`. -/
def load_asset_android (env : Env) (path : List Nat) (c : Nat) : Res Unit :=
  if containsNul path then ⟨.error .nulError, []⟩
  else
    let r : Response :=
      match env.load_asset path with
      | some content => .ok content
      | none => .err .AndroidAssetLoadingError
    ⟨.ok (), [.nativeLoadAsset path, .invoked c r]⟩

/-- Rust `read_internal_storage_android` from `src/fs.rs`. -/
def read_internal_storage_android (env : Env) (path : List Nat) (c : Nat) :
    Res Unit :=
  if containsNul path then ⟨.error .nulError, []⟩
  else
    let r : Response :=
      match env.read_internal_storage path with
      | some content => .ok content
      | none => .err .AndroidInternalStorageError
    ⟨.ok (), [.nativeReadStorage path, .invoked c r]⟩

/-- Rust `write_internal_storage_android` from `src/fs.rs`. -/
def write_internal_storage_android (env : Env) (path : List Nat)
    (data : List Nat) (c : Nat) : Res Unit :=
  if containsNul path then ⟨.error .nulError, []⟩
  else
    let success := env.write_internal_storage path data
    ⟨.ok (), [.nativeWriteStorage path data, .savedCb c success]⟩

/-- Rust `load_file_desktop` from `src/fs.rs`: `File::open(path)?` then
`read_to_end`; any `std::io::Error` becomes `Error::IOError` through the
`From<std::io::Error> for Error` impl (the `?` operator). -/
def load_file_desktop (env : Env) (path : List Nat) (c : Nat) : Res Unit :=
  let r : Response :=
    match env.desktop_read path with
    | .ok bytes => .ok bytes
    | .error e => .err (.IOError e)
  ⟨.ok (), [.desktopOpenRead path, .invoked c r]⟩

/-- Modelled from the spec: `ios::load_file` lives in
`crate::native::ios`, outside `src/fs.rs` (the only source file given).
Per spec §4.2 it is a one-shot synchronous adapter that performs the
native access and invokes the callback exactly once before returning;
per the `Error` doc comments in `src/fs.rs`, a null `pathForResource`
yields `IOSAssetNoSuchFile` and null data yields `IOSAssetNoData`. -/
def ios_load_file (env : Env) (path : List Nat) (c : Nat) : Res Unit :=
  let r : Response :=
    match env.ios_path_for_resource path with
    | none => .err .IOSAssetNoSuchFile
    | some p =>
      match env.ios_data_with_contents p with
      | none => .err .IOSAssetNoData
      | some bytes => .ok bytes
  ⟨.ok (), [.iosLoad path, .invoked c r]⟩

/-- Lift a synchronous adapter's result to the facade's type: the WASM
state is untouched by the non-WASM backends. -/
def liftSync (st : WasmState) (r : Res Unit) : Res WasmState :=
  ⟨r.out.map fun _ => st, r.trace⟩

/-- Rust `pub fn load_file` from `src/fs.rs`: build-time dispatch to exactly
one backend. -/
def load_file (p : Platform) (env : Env) (st : WasmState) (path : List Nat)
    (cb : Cb) : Res WasmState :=
  match p with
  | .wasm32 => wasm.load_file env st path cb
  | .android => liftSync st (load_asset_android env path cb.1)
  | .ios => liftSync st (ios_load_file env path cb.1)
  | .desktop => liftSync st (load_file_desktop env path cb.1)

/-- Rust `pub fn save_file` from `src/fs.rs`: Android write, otherwise
`unimplemented!("save_file is not implemented for this platform")`. -/
def save_file (p : Platform) (env : Env) (path : List Nat) (data : List Nat)
    (c : Nat) : Res Unit :=
  match p with
  | .android => write_internal_storage_android env path data c
  | _ => ⟨.error .unimplemented, []⟩

/-- Rust `pub fn read_file` from `src/fs.rs`: Android internal-storage read,
otherwise `unimplemented!("read_file is not implemented for this
platform")`. -/
def read_file (p : Platform) (env : Env) (path : List Nat) (c : Nat) :
    Res Unit :=
  match p with
  | .android => read_internal_storage_android env path c
  | _ => ⟨.error .unimplemented, []⟩

/-! Helper lemmas about the association-list model of `HashMap`. -/

/-- If no entry's key matches `k`, lookup yields nothing. -/
theorem hmLookup_of_not_any {α : Type} (m : List (Nat × α)) (k : Nat)
    (h : m.any (·.1 == k) = false) : hmLookup m k = none := by
  induction m with
  | nil => rfl
  | cons p t ih =>
    simp only [List.any_cons, Bool.or_eq_false_iff] at h
    simp [hmLookup, h.1, ih h.2]

/-- Removing an absent key yields nothing. -/
theorem hmRemove_of_lookup_none {α : Type} (m : List (Nat × α)) (k : Nat)
    (h : hmLookup m k = none) : hmRemove m k = none := by
  induction m with
  | nil => rfl
  | cons p t ih =>
    simp only [hmLookup] at h
    by_cases hk : p.1 == k
    · simp [hk] at h
    · simp only [hk, if_false] at h
      simp [hmRemove, hk, ih h]

/-- With unique keys, the table left after a successful removal no longer
contains the removed key. -/
theorem hmRemove_lookup_none {α : Type} (m : List (Nat × α)) (k : Nat)
    (v : α) (m' : List (Nat × α)) (hu : keysUnique m = true)
    (h : hmRemove m k = some (v, m')) : hmLookup m' k = none := by
  induction m generalizing m' with
  | nil => simp [hmRemove] at h
  | cons p t ih =>
    simp only [keysUnique, Bool.and_eq_true, Bool.not_eq_true'] at hu
    by_cases hk : p.1 == k
    · simp only [hmRemove, hk, if_true, Option.some.injEq, Prod.mk.injEq] at h
      have hkk : p.1 = k := by simpa using hk
      subst hkk
      rw [← h.2]
      exact hmLookup_of_not_any t p.1 hu.1
    · cases hrec : hmRemove t k with
      | none => simp [hmRemove, hk, hrec] at h
      | some q =>
        simp [hmRemove, hk, hrec] at h
        rw [← h.2]
        simp only [hmLookup, hk, if_false]
        exact ih q.2 hu.2 (by rw [hrec, ← h.1])

/-- Inserting a fresh key appends the new entry, leaving every existing
entry in place. -/
theorem hmInsert_fresh {α : Type} (m : List (Nat × α)) (k : Nat) (v : α)
    (h : hmLookup m k = none) : hmInsert m k v = m ++ [(k, v)] := by
  induction m with
  | nil => rfl
  | cons p t ih =>
    simp only [hmLookup] at h
    by_cases hk : p.1 == k
    · simp [hk] at h
    · simp only [hk, if_false] at h
      simp [hmInsert, hk, ih h]

/-- Appending an entry with a fresh key preserves key uniqueness. -/
theorem keysUnique_append_fresh {α : Type} (m : List (Nat × α)) (k : Nat)
    (v : α) (hu : keysUnique m = true) (h : hmLookup m k = none) :
    keysUnique (m ++ [(k, v)]) = true := by
  induction m with
  | nil => simp [keysUnique]
  | cons p t ih =>
    simp only [keysUnique, Bool.and_eq_true, Bool.not_eq_true'] at hu
    simp only [hmLookup] at h
    by_cases hk : p.1 == k
    · simp [hk] at h
    · simp only [hk, if_false] at h
      have hne : k ≠ p.1 := fun hc => by simp [hc] at hk
      simp only [List.cons_append, keysUnique, Bool.and_eq_true,
        Bool.not_eq_true']
      constructor
      · simp [List.any_append, hu.1, hne]
      · exact ih hu.2 h

/-- Looking up a freshly appended key finds the appended value. -/
theorem hmLookup_append_fresh {α : Type} (m : List (Nat × α)) (k : Nat)
    (v : α) (h : hmLookup m k = none) :
    hmLookup (m ++ [(k, v)]) k = some v := by
  induction m with
  | nil => simp [hmLookup]
  | cons p t ih =>
    simp only [hmLookup] at h
    by_cases hk : p.1 == k
    · simp [hk] at h
    · simp only [hk, if_false] at h
      simp only [List.cons_append, hmLookup, hk, if_false]
      exact ih h

/-- The buffer built by the copy step has exactly the requested length
(`vec![0; n]` filled in place cannot change length). -/
theorem fillBuf_length (n : Nat) (src : List Nat) :
    (fillBuf n src).length = n := by
  simp only [fillBuf, List.length_append, List.length_take,
    List.length_replicate]
  omega

/-- The wasm32 `as usize` cast is the identity on sizes below `2 ^ 32`. -/
theorem usizeOfI32_ofNat (n : Nat) (h : n < 2 ^ 32) :
    usizeOfI32 (n : Int) = n := by
  unfold usizeOfI32
  rw [Int.emod_eq_of_lt (Int.ofNat_nonneg n) (by exact_mod_cast h)]
  simp

/-! Concrete fixtures used by the witness theorems. -/

/-- A concrete environment for the witnesses: identifier `3` downloads
with the `-1` failure sentinel, every other identifier reports size `2`. -/
def envW : Env :=
  { fs_load_file := fun _ _ => 9
    fs_get_buffer_size := fun i => if i == 3 then -1 else 2
    fs_take_buffer := fun _ _ => [10, 20, 30]
    load_asset := fun _ => none
    read_internal_storage := fun _ => none
    write_internal_storage := fun _ _ => true
    desktop_read := fun p => if p == [1] then .ok [9] else .error 2
    ios_path_for_resource := fun _ => none
    ios_data_with_contents := fun _ => none }

/-- A bridge state with one pending request, identifier `3`. -/
def stA : WasmState := ⟨[(3, (5, .ret))], false⟩

/-- A bridge state with one pending request, identifier `4`. -/
def stB : WasmState := ⟨[(4, (5, .ret))], false⟩

/-! Claim theorems. -/

/-- C1: for every call to `load_file`, `read_file` or `save_file` the
supplied completion callback is invoked exactly once regardless of
success or failure path: the synchronous backends (desktop, Android,
iOS) invoke it exactly once before the public call returns (the call
completes with `.ok`), the deferred WASM bridge invokes it zero times at
issuance and exactly once from the notification entry point
`file_loaded` — never twice and never dropped without invocation. -/
theorem C1_callback_exactly_once (env : Env) (st : WasmState)
    (path data : List Nat) (c : Nat) (act : CbAct)
    (hnul : containsNul path = false) :
    (invokedCount (load_file .desktop env st path (c, act)).trace c = 1
      ∧ (load_file .desktop env st path (c, act)).out = .ok st) ∧
    (invokedCount (load_file .android env st path (c, act)).trace c = 1
      ∧ (load_file .android env st path (c, act)).out = .ok st) ∧
    (invokedCount (load_file .ios env st path (c, act)).trace c = 1
      ∧ (load_file .ios env st path (c, act)).out = .ok st) ∧
    (invokedCount (read_file .android env path c).trace c = 1
      ∧ (read_file .android env path c).out = .ok ()) ∧
    (savedCount (save_file .android env path data c).trace c = 1
      ∧ (save_file .android env path data c).out = .ok ()) ∧
    (invokedCount (load_file .wasm32 env st path (c, act)).trace c = 0) ∧
    (∀ i files', st.borrowed = false →
      hmRemove st.files i = some ((c, CbAct.ret), files') →
      invokedCount (wasm.file_loaded env st i).trace c = 1
        ∧ (wasm.file_loaded env st i).out =
            .ok { files := files', borrowed := false }) := by
  refine ⟨?_, ?_, ?_, ?_, ?_, ?_, ?_⟩
  · simp [load_file, liftSync, load_file_desktop, invokedCount]
    cases env.desktop_read path <;> simp [invokedCount, Except.map]
  · simp [load_file, liftSync, load_asset_android, hnul]
    cases env.load_asset path <;> simp [invokedCount, Except.map]
  · simp [load_file, liftSync, ios_load_file]
    cases hp : env.ios_path_for_resource path with
    | none => simp [invokedCount, Except.map]
    | some p' =>
      cases env.ios_data_with_contents p' <;> simp [invokedCount, Except.map]
  · simp [read_file, read_internal_storage_android, hnul]
    cases env.read_internal_storage path <;> simp [invokedCount]
  · simp [save_file, write_internal_storage_android, hnul, savedCount]
  · simp [load_file, wasm.load_file, hnul]
    cases hb : st.borrowed <;> simp [invokedCount]
  · intro i files' hb hrem
    simp only [wasm.file_loaded, hb, Bool.false_eq_true, if_false, hrem]
    by_cases hsz : env.fs_get_buffer_size i == -1 <;>
      simp [hsz, wasm.invokeCb, invokedCount, Except.map]

/-- Witness for C1: concrete run of each leg at path `[1]`, callback
identity `5`, pending identifier `3`. -/
theorem C1_callback_exactly_once_witness :
    containsNul [1] = false ∧
    invokedCount (load_file .desktop envW stA [1] (5, .ret)).trace 5 = 1 ∧
    invokedCount (load_file .wasm32 envW stA [1] (5, .ret)).trace 5 = 0 ∧
    invokedCount (wasm.file_loaded envW stA 3).trace 5 = 1 := by
  have h := C1_callback_exactly_once envW stA [1] [2] 5 .ret rfl
  exact ⟨rfl, h.1.1, h.2.2.2.2.2.1, (h.2.2.2.2.2.2 3 [] rfl rfl).1⟩

/-- C2: after the notification entry point `file_loaded` runs for a
pending identifier `i`, `i` is absent from the table, and a second
notification for the same `i` — as well as any notification for an
identifier never inserted — hits the `panic!("Unknown file loaded!")`
path (a programming-error-class fault) with no callback delivery, never
a silently accepted call and never a recoverable `Result`. -/
theorem C2_table_drains (env : Env) (st : WasmState) (i : Nat)
    (hb : st.borrowed = false) (hu : keysUnique st.files = true) :
    (∀ c files', hmRemove st.files i = some ((c, CbAct.ret), files') →
      (wasm.file_loaded env st i).out =
          .ok { files := files', borrowed := false }
        ∧ hmLookup files' i = none
        ∧ wasm.file_loaded env { files := files', borrowed := false } i =
            ⟨.error .unknownFile, []⟩) ∧
    (hmRemove st.files i = none →
      wasm.file_loaded env st i = ⟨.error .unknownFile, []⟩) := by
  constructor
  · intro c files' hrem
    have hdrain : hmLookup files' i = none :=
      hmRemove_lookup_none st.files i (c, CbAct.ret) files' hu hrem
    refine ⟨?_, hdrain, ?_⟩
    · simp only [wasm.file_loaded, hb, Bool.false_eq_true, if_false, hrem]
      by_cases hsz : env.fs_get_buffer_size i == -1 <;>
        simp [hsz, wasm.invokeCb, Except.map]
    · have hnone : hmRemove files' i = none :=
        hmRemove_of_lookup_none files' i hdrain
      simp [wasm.file_loaded, hnone]
  · intro hnone
    simp [wasm.file_loaded, hb, hnone]

/-- Witness for C2: notifying pending identifier `3` drains it, and the
duplicate notification panics. -/
theorem C2_table_drains_witness :
    stA.borrowed = false ∧ keysUnique stA.files = true ∧
    (wasm.file_loaded envW stA 3).out = .ok { files := [], borrowed := false } ∧
    wasm.file_loaded envW { files := [], borrowed := false } 3 =
      ⟨.error .unknownFile, []⟩ := by
  have h := (C2_table_drains envW stA 3 rfl rfl).1 5 [] rfl
  exact ⟨rfl, rfl, h.1, h.2.2⟩

/-- C3: if the size query reports the `-1` sentinel for a pending
identifier, the stored callback is invoked with `Err(DownloadFailed)`
and the buffer-copy primitive `fs_take_buffer` is never called. -/
theorem C3_size_sentinel_mapping (env : Env) (st : WasmState) (i : Nat)
    (cb : Cb) (files' : List (Nat × Cb))
    (hb : st.borrowed = false)
    (hrem : hmRemove st.files i = some (cb, files'))
    (hsz : env.fs_get_buffer_size i = -1) :
    Event.invoked cb.1 (.err .DownloadFailed) ∈ (wasm.file_loaded env st i).trace
      ∧ ∀ e ∈ (wasm.file_loaded env st i).trace, isTakeBuffer e = false := by
  simp only [wasm.file_loaded, hb, Bool.false_eq_true, if_false, hrem, hsz]
  rcases cb with ⟨cid, act⟩
  cases act with
  | ret => simp [wasm.invokeCb, isTakeBuffer]
  | issueLoad path2 c2 a2 =>
    cases hnul : containsNul path2 <;>
      simp [wasm.invokeCb, wasm.load_file, hnul, isTakeBuffer]

/-- Witness for C3: identifier `3` reports the sentinel in `envW`, and
its callback receives the download failure. -/
theorem C3_size_sentinel_mapping_witness :
    stA.borrowed = false ∧
    hmRemove stA.files 3 = some ((5, CbAct.ret), []) ∧
    envW.fs_get_buffer_size 3 = -1 ∧
    Event.invoked 5 (.err .DownloadFailed) ∈ (wasm.file_loaded envW stA 3).trace := by
  have h := C3_size_sentinel_mapping envW stA 3 (5, .ret) [] rfl rfl rfl
  exact ⟨rfl, rfl, rfl, h.1⟩

/-- C4: when the size query reports a non-sentinel size `n` for a
pending identifier, a buffer of length exactly `n` is built, the
buffer-copy primitive is called for that identifier with length `n`,
and the stored callback is invoked with `Ok` of that very buffer. -/
theorem C4_success_buffer_length (env : Env) (st : WasmState) (i : Nat)
    (cb : Cb) (files' : List (Nat × Cb)) (n : Nat)
    (hb : st.borrowed = false)
    (hrem : hmRemove st.files i = some (cb, files'))
    (hsz : env.fs_get_buffer_size i = (n : Int)) (hn : n < 2 ^ 32) :
    (fillBuf n (env.fs_take_buffer i n)).length = n ∧
    Event.fsTakeBuffer i n ∈ (wasm.file_loaded env st i).trace ∧
    Event.invoked cb.1 (.ok (fillBuf n (env.fs_take_buffer i n)))
      ∈ (wasm.file_loaded env st i).trace := by
  have hne : ((n : Int) == -1) = false := by
    simp only [beq_eq_false_iff_ne, ne_eq]
    omega
  have hcast : usizeOfI32 (n : Int) = n := usizeOfI32_ofNat n hn
  refine ⟨fillBuf_length n _, ?_, ?_⟩
  · simp [wasm.file_loaded, hb, hrem, hsz, hne, hcast]
  · rcases cb with ⟨cid, act⟩
    cases act <;>
      simp [wasm.file_loaded, hb, hrem, hsz, hne, hcast, wasm.invokeCb]

/-- Witness for C4: identifier `4` reports size `2` in `envW`; the
delivered buffer `[10, 20]` has length exactly `2`. -/
theorem C4_success_buffer_length_witness :
    stB.borrowed = false ∧
    hmRemove stB.files 4 = some ((5, CbAct.ret), []) ∧
    envW.fs_get_buffer_size 4 = ((2 : Nat) : Int) ∧
    (fillBuf 2 (envW.fs_take_buffer 4 2)).length = 2 ∧
    Event.fsTakeBuffer 4 2 ∈ (wasm.file_loaded envW stB 4).trace ∧
    Event.invoked 5 (.ok (fillBuf 2 (envW.fs_take_buffer 4 2)))
      ∈ (wasm.file_loaded envW stB 4).trace := by
  have h := C4_success_buffer_length envW stB 4 (5, .ret) [] 2 rfl rfl rfl
    (by decide)
  exact ⟨rfl, rfl, rfl, h.1, h.2.1, h.2.2⟩

/-- Environment for the C5 evaluation: identifier `7` is pending, its
download succeeded with size `3`, and a reentrant issuance would be
assigned the fresh identifier `8`. -/
def envC5 : Env :=
  { fs_load_file := fun _ _ => 8
    fs_get_buffer_size := fun _ => 3
    fs_take_buffer := fun _ n => List.replicate n 1
    load_asset := fun _ => none
    read_internal_storage := fun _ => none
    write_internal_storage := fun _ _ => true
    desktop_read := fun _ => .error 0
    ios_path_for_resource := fun _ => none
    ios_data_with_contents := fun _ => none }

/-- Bridge state for the C5 evaluation: one pending request, identifier
`7`, whose callback reissues `load_file` for a different path (and a
necessarily different pending identifier, `8`). -/
def stC5 : WasmState :=
  ⟨[(7, (0, .issueLoad [104, 105] 1 .ret))], false⟩

/-- C5: evaluation of the code at the failing input. `file_loaded(7)`
removes the entry and invokes its callback, but the source still holds
the `RefMut` of `FILES` from `files.borrow_mut()` at that point, so the
reentrant `wasm::load_file` call inside the callback panics on
`FILES.with(|files| files.borrow_mut())` (a `BorrowMutError`) right
after issuing `fs_load_file` — the notification does not complete
without fault even though the reissued identifier `8` differs from the
notified identifier `7`. -/
theorem C5_reentrant_load_borrow_fault :
    wasm.file_loaded envC5 stC5 7 =
      ⟨.error .borrowError,
       [.fsGetBufferSize 7, .fsTakeBuffer 7 3,
        .invoked 0 (.ok [1, 1, 1]), .fsLoadFile [104, 105] 2]⟩ := by
  rfl

/-- C6: calling `read_file` or `save_file` on any platform other than
Android hits `unimplemented!` immediately: the call panics before any
storage access (empty trace, so no primitive call and no callback
invocation), it is not a successful no-op, and no pretended success is
delivered. -/
theorem C6_unsupported_read_save (p : Platform) (env : Env)
    (path data : List Nat) (c : Nat) (hp : p ≠ .android) :
    read_file p env path c = ⟨.error .unimplemented, []⟩ ∧
    save_file p env path data c = ⟨.error .unimplemented, []⟩ := by
  cases p <;> simp_all [read_file, save_file]

/-- Witness for C6: `read_file`/`save_file` on desktop fail fast. -/
theorem C6_unsupported_read_save_witness :
    Platform.desktop ≠ Platform.android ∧
    read_file .desktop envW [1] 5 = ⟨.error .unimplemented, []⟩ ∧
    save_file .desktop envW [1] [2] 5 = ⟨.error .unimplemented, []⟩ := by
  have h := C6_unsupported_read_save .desktop envW [1] [2] 5 (by decide)
  exact ⟨by decide, h.1, h.2⟩

/-- C7: issuing a request whose runtime-assigned identifier is fresh
(the trust assumption the spec places on the external runtime) appends
the new entry to the table: every previously pending entry is preserved
(no stored callback is lost), the keys remain pairwise distinct, and the
new identifier maps to the newly stored callback. -/
theorem C7_identifier_uniqueness (env : Env) (st : WasmState)
    (path : List Nat) (cb : Cb)
    (hnul : containsNul path = false) (hb : st.borrowed = false)
    (hu : keysUnique st.files = true)
    (hfresh : hmLookup st.files (env.fs_load_file path path.length) = none) :
    (wasm.load_file env st path cb).out =
      .ok { files := st.files ++ [(env.fs_load_file path path.length, cb)]
            borrowed := false } ∧
    keysUnique (st.files ++ [(env.fs_load_file path path.length, cb)]) = true ∧
    (∀ e ∈ st.files,
      e ∈ st.files ++ [(env.fs_load_file path path.length, cb)]) ∧
    hmLookup (st.files ++ [(env.fs_load_file path path.length, cb)])
      (env.fs_load_file path path.length) = some cb := by
  refine ⟨?_, keysUnique_append_fresh st.files _ cb hu hfresh,
    fun e he => List.mem_append_left _ he,
    hmLookup_append_fresh st.files _ cb hfresh⟩
  simp [wasm.load_file, hnul, hb, hmInsert_fresh st.files _ cb hfresh, hu]

/-- Witness for C7: issuing from `stA` gets the fresh identifier `9`. -/
theorem C7_identifier_uniqueness_witness :
    containsNul [1] = false ∧
    keysUnique stA.files = true ∧
    hmLookup stA.files (envW.fs_load_file [1] 1) = none ∧
    (wasm.load_file envW stA [1] (6, .ret)).out =
      .ok { files := [(3, (5, .ret)), (9, (6, .ret))], borrowed := false } ∧
    keysUnique [(3, (5, CbAct.ret)), (9, (6, CbAct.ret))] = true := by
  have h := C7_identifier_uniqueness envW stA [1] (6, .ret) rfl rfl rfl rfl
  exact ⟨rfl, rfl, rfl, h.1, h.2.1⟩

/-- C8: on Android, a null buffer pointer from the native primitive maps
to the path-specific kind: `load_file` delivers
`Err(AndroidAssetLoadingError)` and `read_file` delivers
`Err(AndroidInternalStorageError)` — pinned exactly by the traces, so
neither the generic I/O kind nor each other's kind is produced. -/
theorem C8_android_null_kinds (env : Env) (st : WasmState) (path : List Nat)
    (c : Nat) (act : CbAct)
    (hnul : containsNul path = false)
    (hload : env.load_asset path = none)
    (hread : env.read_internal_storage path = none) :
    (load_file .android env st path (c, act)).trace =
      [.nativeLoadAsset path, .invoked c (.err .AndroidAssetLoadingError)] ∧
    (read_file .android env path c).trace =
      [.nativeReadStorage path, .invoked c (.err .AndroidInternalStorageError)] := by
  constructor <;>
    simp [load_file, read_file, liftSync, load_asset_android,
      read_internal_storage_android, hnul, hload, hread]

/-- Witness for C8: in `envW` both native primitives return null for
path `[1]`, and the two kinds delivered are distinct and path-specific. -/
theorem C8_android_null_kinds_witness :
    containsNul [1] = false ∧
    envW.load_asset [1] = none ∧
    envW.read_internal_storage [1] = none ∧
    (load_file .android envW stA [1] (5, .ret)).trace =
      [.nativeLoadAsset [1], .invoked 5 (.err .AndroidAssetLoadingError)] ∧
    (read_file .android envW [1] 5).trace =
      [.nativeReadStorage [1], .invoked 5 (.err .AndroidInternalStorageError)] := by
  have h := C8_android_null_kinds envW stA [1] 5 .ret rfl rfl rfl
  exact ⟨rfl, rfl, rfl, h.1, h.2⟩

/-- C9: the desktop backend delivers `Ok` of the full contents when open
and read succeed, and `Err(IOError(cause))` wrapping the original
`std::io::Error` whenever open or read fails; the traces show exactly
one filesystem access (no retry) and one callback invocation, and the
call itself returns normally. These two cases are exhaustive, so no
other error kind is ever produced by this backend. -/
theorem C9_desktop_generic_io (env : Env) (st : WasmState) (path : List Nat)
    (c : Nat) (act : CbAct) :
    (∀ bytes, env.desktop_read path = .ok bytes →
      (load_file .desktop env st path (c, act)).trace =
        [.desktopOpenRead path, .invoked c (.ok bytes)]) ∧
    (∀ e, env.desktop_read path = .error e →
      (load_file .desktop env st path (c, act)).trace =
        [.desktopOpenRead path, .invoked c (.err (.IOError e))]) ∧
    (load_file .desktop env st path (c, act)).out = .ok st := by
  refine ⟨?_, ?_, ?_⟩
  · intro bytes hok
    simp [load_file, liftSync, load_file_desktop, hok]
  · intro e herr
    simp [load_file, liftSync, load_file_desktop, herr]
  · simp [load_file, liftSync, load_file_desktop, Except.map]

/-- Witness for C9: success on path `[1]`, failure cause `2` on `[2]`. -/
theorem C9_desktop_generic_io_witness :
    envW.desktop_read [1] = .ok [9] ∧
    (load_file .desktop envW stA [1] (5, .ret)).trace =
      [.desktopOpenRead [1], .invoked 5 (.ok [9])] ∧
    envW.desktop_read [2] = .error 2 ∧
    (load_file .desktop envW stA [2] (5, .ret)).trace =
      [.desktopOpenRead [2], .invoked 5 (.err (.IOError 2))] :=
  ⟨rfl, (C9_desktop_generic_io envW stA [1] 5 .ret).1 [9] rfl, rfl,
   (C9_desktop_generic_io envW stA [2] 5 .ret).2.1 2 rfl⟩

/-- C10: for every path containing a NUL byte, the Android backends and
the WASM `load_file` panic on `CString::new(path).unwrap()` before any
native primitive call and before any callback invocation (empty trace);
a path without NUL bytes never takes that branch. -/
theorem C10_nul_path_panics (env : Env) (st : WasmState)
    (path data : List Nat) (c : Nat) (cb : Cb) :
    (containsNul path = true →
      load_asset_android env path c = ⟨.error .nulError, []⟩ ∧
      read_internal_storage_android env path c = ⟨.error .nulError, []⟩ ∧
      write_internal_storage_android env path data c = ⟨.error .nulError, []⟩ ∧
      wasm.load_file env st path cb = ⟨.error .nulError, []⟩) ∧
    (containsNul path = false →
      (load_asset_android env path c).out ≠ .error .nulError ∧
      (read_internal_storage_android env path c).out ≠ .error .nulError ∧
      (write_internal_storage_android env path data c).out ≠ .error .nulError ∧
      (wasm.load_file env st path cb).out ≠ .error .nulError) := by
  constructor
  · intro h
    refine ⟨?_, ?_, ?_, ?_⟩ <;>
      simp [load_asset_android, read_internal_storage_android,
        write_internal_storage_android, wasm.load_file, h]
  · intro h
    refine ⟨?_, ?_, ?_, ?_⟩
    · simp [load_asset_android, h]
    · simp [read_internal_storage_android, h]
    · simp [write_internal_storage_android, h]
    · cases hb : st.borrowed <;> simp [wasm.load_file, h, hb]

/-- Witness for C10: the path `[97, 0, 98]` (an interior NUL) panics in
all four entry points; the clean path `[1]` does not. -/
theorem C10_nul_path_panics_witness :
    containsNul [97, 0, 98] = true ∧
    load_asset_android envW [97, 0, 98] 5 = ⟨.error .nulError, []⟩ ∧
    wasm.load_file envW stA [97, 0, 98] (5, .ret) = ⟨.error .nulError, []⟩ ∧
    containsNul [1] = false ∧
    (load_asset_android envW [1] 5).out ≠ .error .nulError := by
  have h := (C10_nul_path_panics envW stA [97, 0, 98] [2] 5 (5, .ret)).1 rfl
  have h2 := (C10_nul_path_panics envW stA [1] [2] 5 (5, .ret)).2 rfl
  exact ⟨rfl, h.1, h.2.2.2, rfl, h2.1⟩
